import Mathlib

/-!
Shallow embedding of `lib711cov.py` (kennytm/711cov), the coverage-aggregation
library: gcov annotation parsing (`SourceLine.regex`, `SourceBranch.regex`,
`SourceFunction.regex` and the corresponding `from_gcov_match` constructors),
the merge engine (`SourceBranch.combine`, `SourceLine.combine`,
`SourceLine.add_branch`, `SourceFunction.combine`, `SourceFile.add`),
the percentage formatter `to_percentage`, the report-filename mangler
`to_html_filename`, and the HTML fragments relevant to escaping.

Python mutation is modelled by explicit state passing: a method that mutates
`self` and can raise returns the post-state paired with `Option PyErr`
(`none` = normal return); Python's in-place mutations that happen *before* an
exception is raised are visible in the returned post-state, exactly as they
are visible in the caller's object after catching the exception.  Methods
that only raise before any mutation are modelled with `Except`.

Python `int` is unbounded, so counts are `Nat`/`Int` with no wrap-around.
Text is modelled as `List Char`/`String`; input lines are newline-free (the
regexes' `.` and `[^)]` never cross a line boundary, and the file iterator
yields one line at a time).
-/

namespace Lib711cov

/-- Python runtime exceptions that the embedded code can raise. -/
inductive PyErr where
  | assertionError
  | attributeError
  | indexError
deriving DecidableEq

/-- Python's `\s` (whitespace) restricted to ASCII.  Python's Unicode-aware
`\s` also matches rare non-ASCII space characters; no string in this
development contains one, so the embedding agrees with the source on every
string considered. -/
def py_isSpace (c : Char) : Bool :=
  [' ', '\t', '\n', '\r', Char.ofNat 11, Char.ofNat 12].contains c

/-- Python's `\d` restricted to ASCII.  Python's Unicode-aware `\d` also
matches non-ASCII decimal digits; no string in this development contains
one. -/
def py_isDigit (c : Char) : Bool :=
  ['0', '1', '2', '3', '4', '5', '6', '7', '8', '9'].contains c

/-- Python's `\w` restricted to ASCII: `[a-zA-Z0-9_]`.  Python's
Unicode-aware `\w` additionally matches non-ASCII alphanumerics; the only
non-ASCII characters appearing in this development (U+00A4 CURRENCY SIGN and
U+A490 YI RADICAL QOT, categories Sc and So) are not alphanumeric, so the
embedding agrees with the source on every string considered. -/
def py_isWordChar (c : Char) : Bool :=
  ('a' ≤ c && c ≤ 'z') || ('A' ≤ c && c ≤ 'Z') || ('0' ≤ c && c ≤ '9') || c = '_'

/-- `int(s)` on a run of ASCII digits. -/
def natOfDigits (l : List Char) : Nat :=
  l.foldl (fun acc c => 10 * acc + (c.toNat - 48)) 0

/-- `(s.takeWhile, s.dropWhile)` for a maximal run of digits (`\d+`
followed by a character that is not a digit never benefits from regex
backtracking in the patterns below, because the character required after the
run is never itself a digit). -/
def spanDigits (s : List Char) : List Char × List Char :=
  (s.takeWhile py_isDigit, s.dropWhile py_isDigit)

/-- Consume a literal (a regex literal such as `branch` or `function `):
returns the remainder when `p` is a prefix of `s`. -/
def dropLit : List Char → List Char → Option (List Char)
  | [], s => some s
  | c :: p, d :: s => if d = c then dropLit p s else none
  | _ :: _, [] => none

/-- `\s+`: at least one whitespace character, maximal run. -/
def wsPlus (s : List Char) : Option (List Char) :=
  match s with
  | c :: rest => if py_isSpace c then some (rest.dropWhile py_isSpace) else none
  | [] => none

/-- A single `\s`. -/
def wsOne (s : List Char) : Option (List Char) :=
  match s with
  | c :: rest => if py_isSpace c then some rest else none
  | [] => none

/-- `SourceBranch.__init__`: a branch in a source line. -/
structure SourceBranch where
  count : Nat
  id_ : Nat
  type_ : String
  info : Option String
deriving DecidableEq

/-- The named groups of a successful `SourceBranch.regex` match:
`type` (participating alternative of `branch|call`), `id`, and the optional
`count` and `info` groups (absent on the `never executed` alternative,
`info` also absent when no parenthesised suffix follows the count). -/
structure BranchGroups where
  type_ : String
  id_ : List Char
  count : Option (List Char)
  info : Option (List Char)
deriving DecidableEq

/-- `SourceBranch.from_gcov_match`: `int(match.group('count') or '0')`,
`int(match.group('id'))`, the matched type, and the `info` group. -/
def SourceBranch.from_gcov_match (g : BranchGroups) : SourceBranch :=
  { count := natOfDigits (g.count.getD ['0'])
    id_ := natOfDigits g.id_
    type_ := g.type_
    info := g.info.map String.mk }

/-- `SourceBranch.combine`: asserts equal `id_` and `type_` (an
`AssertionError` is raised before any mutation), then `count += other.count`. -/
def SourceBranch.combine (self other : SourceBranch) : Except PyErr SourceBranch :=
  if self.id_ = other.id_ then
    if self.type_ = other.type_ then
      .ok { self with count := self.count + other.count }
    else .error PyErr.assertionError
  else .error PyErr.assertionError

/-- `SourceLine.__init__`: a line of source code.  `self.branches` is a
`dict` keyed by the branch id (`add_branch` keys on `branch.id_` alone);
Python dicts preserve insertion order and updating an existing key keeps its
position, which the association list reproduces. -/
structure SourceLine where
  linenum : Nat
  source : String
  coverage : Int
  branches : List (Nat × SourceBranch)
deriving DecidableEq

/-- Python `dict` lookup on the association-list model. -/
def dictGet (bs : List (Nat × SourceBranch)) (k : Nat) : Option SourceBranch :=
  match bs with
  | [] => none
  | (k', b) :: rest => if k' = k then some b else dictGet rest k

/-- Python `dict` store on the association-list model: updating an existing
key keeps its position, a new key is appended. -/
def dictSet (bs : List (Nat × SourceBranch)) (k : Nat) (v : SourceBranch) :
    List (Nat × SourceBranch) :=
  match bs with
  | [] => [(k, v)]
  | (k', v') :: rest => if k' = k then (k, v) :: rest else (k', v') :: dictSet rest k v

/-- `SourceLine.from_gcov_match` applied to the three groups of a
`SourceLine.regex` match: `'-'` decodes to `-1`, a five-character `#####` or
`=====` block to `0`, and a digit run to its integer value. -/
def SourceLine.from_gcov_match (cs ls src : List Char) : SourceLine :=
  { linenum := natOfDigits ls
    source := String.mk src
    coverage :=
      if cs = ['-'] then -1
      else if cs = ("#####".data) ∨ cs = ("=====".data) then 0
      else (natOfDigits cs : Int)
    branches := [] }

/-- `SourceLine.add_branch`: combine into the branch stored under
`branch.id_` when present (the dict is keyed by the id alone), else insert. -/
def SourceLine.add_branch (self : SourceLine) (branch : SourceBranch) :
    Except PyErr SourceLine :=
  match dictGet self.branches branch.id_ with
  | some b =>
      (b.combine branch).map fun b' =>
        { self with branches := dictSet self.branches branch.id_ b' }
  | none => .ok { self with branches := self.branches ++ [(branch.id_, branch)] }

/-- `SourceLine.combine`: asserts equal `linenum` and `source`, updates
`self.coverage` in place (new `-1` leaves it, existing `-1` is replaced, else
the counts add), and then evaluates `other.values()` in the loop header
`for branch in other.values():`.  `SourceLine` defines no attribute `values`
(the branches dict lives in `other.branches`), so this raises
`AttributeError` unconditionally, after the coverage mutation and before any
branch is folded. -/
def SourceLine.combine (self other : SourceLine) : SourceLine × Option PyErr :=
  if self.linenum = other.linenum then
    if self.source = other.source then
      ({ self with coverage :=
          if 0 ≤ other.coverage then
            if self.coverage < 0 then other.coverage
            else self.coverage + other.coverage
          else self.coverage },
        some PyErr.attributeError)
    else (self, some PyErr.assertionError)
  else (self, some PyErr.assertionError)

/-- C1: merging a new `SourceLine` into an existing one with equal line
number and source text updates the existing line's count as claimed: a new
"not instrumented" count (`-1`) leaves it unchanged, an existing `-1` is
replaced by the new count, and otherwise the counts are summed.  (The count
update happens before `SourceLine.combine` raises the `AttributeError`
analysed under C2, and the in-place mutation persists, so the post-state
count follows exactly the claimed rule.) -/
theorem combine_count_rule (a b : SourceLine)
    (hl : a.linenum = b.linenum) (hs : a.source = b.source)
    (ha : a.coverage = -1 ∨ 0 ≤ a.coverage) (hb : b.coverage = -1 ∨ 0 ≤ b.coverage) :
    ((SourceLine.combine a b).1).coverage =
      if b.coverage = -1 then a.coverage
      else if a.coverage = -1 then b.coverage
      else a.coverage + b.coverage := by
  unfold SourceLine.combine
  rw [if_pos hl, if_pos hs]
  simp only
  rcases ha with ha | ha <;> rcases hb with hb | hb <;> split_ifs <;> omega

/-- Witness for C1 at a concrete input: an existing not-instrumented line
takes the new line's count 5. -/
theorem combine_count_rule_witness :
    ((SourceLine.combine ⟨1, "x", -1, []⟩ ⟨1, "x", 5, []⟩).1).coverage = 5 := by
  have h := combine_count_rule ⟨1, "x", -1, []⟩ ⟨1, "x", 5, []⟩ rfl rfl
    (Or.inl rfl) (Or.inr (by decide))
  simpa using h

/-- C2: the claimed branch folding never executes.  `SourceLine.combine`
evaluates `other.values()`, but `SourceLine` has no `values` attribute
(the dict is `other.branches`), so the merge raises `AttributeError` after
the coverage update: here the existing line keeps its sole branch at count 2
(not 2+5) and the new line's branch with id 1 is never added.  (Moreover the
intended fold would key branches by `id_` alone — `SourceLine.add_branch`
tests `branch_id in self.branches` — not by `(id, kind)` as claimed.) -/
theorem combine_branch_fold_attributeError :
    SourceLine.combine
        ⟨7, "x = 1;", 2, [(0, ⟨2, 0, "branch", none⟩)]⟩
        ⟨7, "x = 1;", 3, [(0, ⟨5, 0, "branch", none⟩), (1, ⟨4, 1, "call", none⟩)]⟩ =
      (⟨7, "x = 1;", 5, [(0, ⟨2, 0, "branch", none⟩)]⟩, some PyErr.attributeError) := by
  decide

/-- `SourceFunction.__init__`: a function record; `pretty_name` starts out
equal to `name` (it is only changed later by the external demangler). -/
structure SourceFunction where
  name : String
  linenum : Nat
  pretty_name : String
  called : Nat
  returned : Nat
  blocks : Nat
deriving DecidableEq

/-- The four groups of a `SourceFunction.regex` match:
name (`\S+`), called, returned and blocks-executed digit runs. -/
structure FunctionGroups where
  name : List Char
  called : List Char
  returned : List Char
  blocks : List Char
deriving DecidableEq

/-- `SourceFunction.from_gcov_match`. -/
def SourceFunction.from_gcov_match (linenum : Nat) (g : FunctionGroups) : SourceFunction :=
  { name := String.mk g.name
    linenum := linenum
    pretty_name := String.mk g.name
    called := natOfDigits g.called
    returned := natOfDigits g.returned
    blocks := natOfDigits g.blocks }

/-- `SourceFunction.combine`: asserts equal `name` (raising before any
mutation), then `called` accumulates and the two percentages take the
maximum. -/
def SourceFunction.combine (self other : SourceFunction) : Except PyErr SourceFunction :=
  if self.name = other.name then
    .ok { self with
          called := self.called + other.called
          returned := max self.returned other.returned
          blocks := max self.blocks other.blocks }
  else .error PyErr.assertionError

/-!  ### The three line matchers

`re.match` anchors at the start of the line and accepts trailing text.  The
deterministic maximal-munch parsers below are equivalent to the backtracking
regexes: in every pattern, each greedy repetition (`\s*`, `\s+`, `\d+`,
`[1-9]\d*`, `\S+`, `[^)]*`) is followed by a required token that the repeated
class itself cannot match, so no shorter match of the repetition can ever
succeed, and the literal alternations (`-|#{5}|={5}|\d+`, `branch|call`,
`never executed|…`, `taken|returned`) start with mutually exclusive tokens.
-/

/-- The count-field alternation `(-|#{5}|={5}|\d+)` of `SourceLine.regex`. -/
def countField (s : List Char) : Option (List Char × List Char) :=
  match s with
  | [] => none
  | c :: rest =>
    if c = '-' then some (['-'], rest)
    else if c = '#' then
      match rest with
      | '#' :: '#' :: '#' :: '#' :: r => some (("#####".data), r)
      | _ => none
    else if c = '=' then
      match rest with
      | '=' :: '=' :: '=' :: '=' :: r => some (("=====".data), r)
      | _ => none
    else
      match spanDigits (c :: rest) with
      | ([], _) => none
      | (ds, r) => some (ds, r)

/-- The line-number group `([1-9]\d*)` of `SourceLine.regex`: a digit run
whose first digit is not `0`. -/
def lineNumField (s : List Char) : Option (List Char × List Char) :=
  match spanDigits s with
  | ([], _) => none
  | (d :: ds, rest) => if d = '0' then none else some (d :: ds, rest)

/-- The literal `:` of `SourceLine.regex`. -/
def expectColon (s : List Char) : Option (List Char) :=
  match s with
  | c :: rest => if c = ':' then some rest else none
  | [] => none

/-- `SourceLine.regex.match`: `\s*(-|#{5}|={5}|\d+):\s*([1-9]\d*):(.*)`.
Returns the three groups (count field, line-number field, source text). -/
def sourceLineMatch (s : List Char) : Option (List Char × List Char × List Char) :=
  (countField (s.dropWhile py_isSpace)).bind fun p =>
    (expectColon p.2).bind fun r2 =>
      (lineNumField (r2.dropWhile py_isSpace)).bind fun q =>
        (expectColon q.2).map fun src => (p.1, q.1, src)

/-- The optional suffix `(?:\s+\((?P<info>[^)]*)\))?` of
`SourceBranch.regex`: when it fails to match, the group is absent. -/
def infoOpt (s : List Char) : Option (List Char) :=
  match wsPlus s with
  | none => none
  | some r1 =>
    match r1 with
    | '(' :: r2 =>
      match r2.dropWhile (fun c => c != ')') with
      | ')' :: _ => some (r2.takeWhile (fun c => c != ')'))
      | _ => none
    | _ => none

/-- The `(?:taken|returned)\s(?P<count>\d+)(?:\s+\((?P<info>[^)]*)\))?`
alternative of `SourceBranch.regex`. -/
def takenTail (s : List Char) : Option (Option (List Char) × Option (List Char)) :=
  match (match dropLit ("taken".data) s with
         | some r => some r
         | none => dropLit ("returned".data) s) with
  | none => none
  | some r1 =>
    match wsOne r1 with
    | none => none
    | some r2 =>
      match spanDigits r2 with
      | ([], _) => none
      | (ds, r3) =>
        match infoOpt r3 with
        | some info => some (some ds, some info)
        | none => some (some ds, none)

/-- The alternation `(?:never\sexecuted|(?:taken|returned)\s(\d+)…)` of
`SourceBranch.regex`; on failure of the first alternative the second is
tried from the same position. -/
def branchTail (s : List Char) : Option (Option (List Char) × Option (List Char)) :=
  match dropLit ("never".data) s with
  | some r1 =>
    (match wsOne r1 with
     | some r2 =>
       match dropLit ("executed".data) r2 with
       | some _ => some (none, none)
       | none => takenTail s
     | none => takenTail s)
  | none => takenTail s

/-- `SourceBranch.regex.match`:
`(branch|call)\s+(\d+)\s(?:never executed|(taken|returned) (\d+)( \(info\))?)`
(written with `re.X`, so the literal spaces are `\s`-classes as in the
source). -/
def branchMatch (s : List Char) : Option BranchGroups :=
  match (match dropLit ("branch".data) s with
         | some r => some ("branch", r)
         | none =>
           match dropLit ("call".data) s with
           | some r => some ("call", r)
           | none => none) with
  | none => none
  | some (ty, r1) =>
    match wsPlus r1 with
    | none => none
    | some r2 =>
      match spanDigits r2 with
      | ([], _) => none
      | (ids, r3) =>
        match wsOne r3 with
        | none => none
        | some r4 =>
          (branchTail r4).map fun p => ⟨ty, ids, p.1, p.2⟩

/-- `SourceFunction.regex.match`:
`function (\S+) called (\d+) returned (\d+)% blocks executed (\d+)%`. -/
def functionMatch (s : List Char) : Option FunctionGroups :=
  match dropLit ("function ".data) s with
  | none => none
  | some r1 =>
    match r1.takeWhile (fun c => !py_isSpace c), r1.dropWhile (fun c => !py_isSpace c) with
    | [], _ => none
    | nm, r2 =>
      match dropLit (" called ".data) r2 with
      | none => none
      | some r3 =>
        match spanDigits r3 with
        | ([], _) => none
        | (cds, r4) =>
          match dropLit (" returned ".data) r4 with
          | none => none
          | some r5 =>
            match spanDigits r5 with
            | ([], _) => none
            | (rds, r6) =>
              match dropLit ("% blocks executed ".data) r6 with
              | none => none
              | some r7 =>
                match spanDigits r7 with
                | ([], _) => none
                | (bds, r8) =>
                  match r8 with
                  | '%' :: _ => some ⟨nm, cds, rds, bds⟩
                  | _ => none

/-- `SourceFile.__init__`. -/
structure SourceFile where
  source_code : List SourceLine
  source_functions : List SourceFunction
  source_name : String
deriving DecidableEq

/-- One iteration of the reading loop in `SourceFile.add` (step 1): the
three patterns are tried in priority order; a branch/call line is attached
to `source_lines[-1]`, which raises `IndexError` when the list is still
empty; a function line synthesizes its declaration line as one past the last
parsed source line (or 1); unmatched lines are ignored. -/
def parseStep (acc : List SourceLine × List SourceFunction) (line : List Char) :
    Except PyErr (List SourceLine × List SourceFunction) :=
  match sourceLineMatch line with
  | some (cs, ls, src) => .ok (acc.1 ++ [SourceLine.from_gcov_match cs ls src], acc.2)
  | none =>
    match branchMatch line with
    | some g =>
      match acc.1.getLast? with
      | none => .error PyErr.indexError
      | some last =>
        (last.add_branch (SourceBranch.from_gcov_match g)).map
          fun last' => (acc.1.dropLast ++ [last'], acc.2)
    | none =>
      match functionMatch line with
      | some g =>
        let linenum :=
          match acc.1.getLast? with
          | some last => last.linenum + 1
          | none => 1
        .ok (acc.1, acc.2 ++ [SourceFunction.from_gcov_match linenum g])
      | none => .ok acc

/-- The whole reading loop of `SourceFile.add` (step 1) over the file's
lines. -/
def parseLoop (acc : List SourceLine × List SourceFunction) :
    List (List Char) → Except PyErr (List SourceLine × List SourceFunction)
  | [] => .ok acc
  | l :: rest =>
    match parseStep acc l with
    | .error e => .error e
    | .ok acc' => parseLoop acc' rest

/-- `for orig, new in zip(self.source_code, source_lines): orig.combine(new)`
— the in-place pairwise line merge of `SourceFile.add` (step 2), truncating
to the shorter sequence; an exception stops the loop, leaving the already
processed prefix mutated and the rest untouched. -/
def combineLines : List SourceLine → List SourceLine → List SourceLine × Option PyErr
  | [], _ => ([], none)
  | orig :: origs, [] => (orig :: origs, none)
  | orig :: origs, n :: ns =>
    match SourceLine.combine orig n with
    | (orig', some e) => (orig' :: origs, some e)
    | (orig', none) =>
      let r := combineLines origs ns
      (orig' :: r.1, r.2)

/-- `for orig, new in zip(self.source_functions, source_functions):
orig.combine(new)` — the in-place pairwise (positional) function merge of
`SourceFile.add` (step 2). -/
def combineFuncs : List SourceFunction → List SourceFunction →
    List SourceFunction × Option PyErr
  | [], _ => ([], none)
  | orig :: origs, [] => (orig :: origs, none)
  | orig :: origs, n :: ns =>
    match SourceFunction.combine orig n with
    | .error e => (orig :: origs, some e)
    | .ok orig' =>
      let r := combineFuncs origs ns
      (orig' :: r.1, r.2)

/-- `SourceFile.add`, on the list of lines of a `*.gcov` file: parse
(step 1), then combine pairwise into the existing data, or install the
parsed data when the file was still empty (step 2).  An exception raised at
any point propagates to the caller with the mutations made so far. -/
def SourceFile.add (self : SourceFile) (lines : List (List Char)) :
    SourceFile × Option PyErr :=
  match parseLoop ([], []) lines with
  | .error e => (self, some e)
  | .ok (slines, sfuncs) =>
    match (if self.source_code ≠ [] then combineLines self.source_code slines
           else (slines, none)) with
    | (code, some e) => ({ self with source_code := code }, some e)
    | (code, none) =>
      match (if self.source_functions ≠ [] then combineFuncs self.source_functions sfuncs
             else (sfuncs, none)) with
      | (funcs, e) => ({ self with source_code := code, source_functions := funcs }, e)

/-- The function merge as claim C3 words it (a comparison definition written
from the claim's words, *not* from the source): functions are matched up by
`mangled_name`; a pair with the same name sums `call_count` and takes the
maximum of each percentage. -/
def combineFuncsByNameClaim (orig new : List SourceFunction) : List SourceFunction :=
  orig.map fun o =>
    match new.find? (fun n => n.name == o.name) with
    | some n => { o with
                  called := o.called + n.called
                  returned := max o.returned n.returned
                  blocks := max o.blocks n.blocks }
    | none => o

/-- A gcov file containing two function records (`a` then `b`). -/
def funcsTextA : List (List Char) :=
  [("function a called 1 returned 10% blocks executed 20%".data),
   ("function b called 2 returned 30% blocks executed 40%".data)]

/-- A second gcov file with the same two functions in the opposite order. -/
def funcsTextB : List (List Char) :=
  [("function b called 3 returned 50% blocks executed 60%".data),
   ("function a called 4 returned 70% blocks executed 80%".data)]

/-- C3 counterexample: the merge is *not* keyed by `mangled_name` — it is
positional (`zip`).  Folding a record with functions `[b, a]` into an
existing file with `[a, b]` pairs `a` with `b`, so `SourceFunction.combine`'s
name assertion fails and no call count is accumulated (`called` stays
`[1, 2]`), while the claimed keyed merge would produce `called = [5, 5]`
(with the percentage maxima shown). -/
theorem function_merge_not_keyed_by_name :
    SourceFile.add (SourceFile.add ⟨[], [], ""⟩ funcsTextA).1 funcsTextB =
      (⟨[], [⟨"a", 1, "a", 1, 10, 20⟩, ⟨"b", 1, "b", 2, 30, 40⟩], ""⟩,
        some PyErr.assertionError) ∧
    combineFuncsByNameClaim
        [⟨"a", 1, "a", 1, 10, 20⟩, ⟨"b", 1, "b", 2, 30, 40⟩]
        [⟨"b", 1, "b", 3, 50, 60⟩, ⟨"a", 1, "a", 4, 70, 80⟩] =
      [⟨"a", 1, "a", 5, 70, 80⟩, ⟨"b", 1, "b", 5, 50, 60⟩] := by
  decide

/-- C3 amended: the function merge of `SourceFile.add` is positional — the
i-th new function is combined with the i-th existing one, truncating to the
shorter sequence — and requires the paired functions to carry equal mangled
names (otherwise an `AssertionError` aborts the merge).  When every pair's
names agree, `call_count` becomes the sum and the two percentages the
maximum of the observed values, and the merge succeeds. -/
theorem function_merge_positional (orig new : List SourceFunction)
    (h : ∀ p ∈ orig.zip new, p.1.name = p.2.name) :
    combineFuncs orig new =
      (List.zipWith
          (fun o n => { o with
                        called := o.called + n.called
                        returned := max o.returned n.returned
                        blocks := max o.blocks n.blocks })
          orig new
        ++ orig.drop new.length, none) := by
  induction orig generalizing new with
  | nil => cases new <;> simp [combineFuncs]
  | cons o os ih =>
    cases new with
    | nil => simp [combineFuncs]
    | cons n ns =>
      have hn : o.name = n.name := h (o, n) (by simp)
      have hrest : ∀ p ∈ os.zip ns, p.1.name = p.2.name := by
        intro p hp
        exact h p (by simp [hp])
      simp [combineFuncs, SourceFunction.combine, hn, ih ns hrest]

/-- Witness for C3's amended statement at concrete aligned inputs: the
pairwise sums and maxima are produced without error. -/
theorem function_merge_positional_witness :
    combineFuncs
        [⟨"a", 1, "a", 1, 10, 80⟩, ⟨"b", 2, "b", 2, 30, 40⟩]
        [⟨"a", 1, "a", 4, 70, 20⟩] =
      ([⟨"a", 1, "a", 5, 70, 80⟩, ⟨"b", 2, "b", 2, 30, 40⟩], none) := by
  have h := function_merge_positional
    [⟨"a", 1, "a", 1, 10, 80⟩, ⟨"b", 2, "b", 2, 30, 40⟩]
    [⟨"a", 1, "a", 4, 70, 20⟩] (by decide)
  simpa using h

/-- A small gcov file: two source lines, a branch on the first. -/
def selfMergeText : List (List Char) :=
  [("        1:    1:int x;".data),
   ("branch 0 taken 3".data),
   ("        2:    2:return 0;".data)]

/-- C7: merging a parsed record with an identical copy of itself does *not*
double every line count and branch count — `SourceLine.combine` raises
`AttributeError` (`other.values()` does not exist) on the very first line
pair, so only the first line's count is doubled (1 → 2), the second line's
count stays 2 instead of becoming 4, and the branch's `taken_count` stays 3
instead of becoming 6. -/
theorem self_merge_attributeError :
    SourceFile.add (SourceFile.add ⟨[], [], ""⟩ selfMergeText).1 selfMergeText =
      (⟨[⟨1, "int x;", 2, [(0, ⟨3, 0, "branch", none⟩)]⟩, ⟨2, "return 0;", 2, []⟩],
        [], ""⟩,
        some PyErr.attributeError) := by
  decide

/-- C8: merging a new record with fewer lines (one) into an existing file
with more lines (two) does *not* complete without error: the first zipped
pair raises `AttributeError` inside `SourceLine.combine`.  The count of the
first line has been accumulated (1 + 3 = 4) and the excess second line keeps
its prior data, but the merge aborts with the exception. -/
theorem prefix_merge_attributeError :
    SourceFile.add
        (SourceFile.add ⟨[], [], ""⟩
          [("        1:    1:a".data), ("        5:    2:b".data)]).1
        [("        3:    1:a".data)] =
      (⟨[⟨1, "a", 4, []⟩, ⟨2, "b", 5, []⟩], [], ""⟩, some PyErr.attributeError) := by
  decide

/-- A successful `dropLit` on a nonempty literal pins the first character of
the input. -/
theorem dropLit_cons {c : Char} {p s r : List Char}
    (h : dropLit (c :: p) s = some r) : ∃ t, s = c :: t := by
  cases s with
  | nil => simp [dropLit] at h
  | cons d t =>
    by_cases hd : d = c
    · exact ⟨t, by rw [hd]⟩
    · simp [dropLit, hd] at h

/-- A line whose first character is not whitespace, not `-`, `#`, `=` and
not a digit cannot match `SourceLine.regex`. -/
theorem sourceLineMatch_none_of_head (c : Char) (t : List Char)
    (h1 : py_isSpace c = false) (h2 : ¬c = '-') (h3 : ¬c = '#') (h4 : ¬c = '=')
    (h5 : py_isDigit c = false) :
    sourceLineMatch (c :: t) = none := by
  simp [sourceLineMatch, countField, spanDigits, h1, h2, h3, h4, h5]

/-- The source-line and branch patterns are mutually exclusive: a line
matching `SourceBranch.regex` starts with `branch` or `call`, hence cannot
match `SourceLine.regex`. -/
theorem sourceLineMatch_none_of_branch {s : List Char} {g : BranchGroups}
    (h : branchMatch s = some g) : sourceLineMatch s = none := by
  unfold branchMatch at h
  cases hb : dropLit ("branch".data) s with
  | some r =>
    obtain ⟨t, ht⟩ := dropLit_cons hb
    subst ht
    exact sourceLineMatch_none_of_head 'b' t (by decide) (by decide) (by decide)
      (by decide) (by decide)
  | none =>
    rw [hb] at h
    cases hc : dropLit ("call".data) s with
    | some r =>
      obtain ⟨t, ht⟩ := dropLit_cons hc
      subst ht
      exact sourceLineMatch_none_of_head 'c' t (by decide) (by decide) (by decide)
        (by decide) (by decide)
    | none => rw [hc] at h; cases h

/-- While no source line has been parsed yet, the reading loop keeps an
empty `source_lines`; the first branch/call line it meets makes
`source_lines[-1]` raise `IndexError`. -/
theorem parseLoop_branch_first (b : List Char) (g : BranchGroups)
    (hb : branchMatch b = some g) :
    ∀ (pre post : List (List Char)) (fs : List SourceFunction),
      (∀ l ∈ pre, sourceLineMatch l = none) →
      parseLoop ([], fs) (pre ++ b :: post) = .error PyErr.indexError := by
  intro pre
  induction pre with
  | nil =>
    intro post fs _
    have hsb : sourceLineMatch b = none := sourceLineMatch_none_of_branch hb
    simp [parseLoop, parseStep, hsb, hb]
  | cons l pre ih =>
    intro post fs hpre
    have hl : sourceLineMatch l = none := hpre l (by simp)
    have hpre' : ∀ l' ∈ pre, sourceLineMatch l' = none := fun l' h => hpre l' (by simp [h])
    simp only [List.cons_append, parseLoop, parseStep, hl]
    cases hbl : branchMatch l with
    | some g' => simp
    | none =>
      cases hfl : functionMatch l with
      | some gf => simpa using ih post _ hpre'
      | none => simpa using ih post fs hpre'

/-- C10: an annotation text in which a branch/call-pattern line occurs
before any source-line-pattern line is a parse error: `SourceFile.add`
attempts `source_lines[-1].add_branch(...)` on the still-empty list and
raises `IndexError`, leaving the file unchanged.  (So a successful parse
requires every branch/call record to be preceded by some source line.) -/
theorem branch_before_source_error (f : SourceFile) (pre post : List (List Char))
    (b : List Char) (g : BranchGroups)
    (hpre : ∀ l ∈ pre, sourceLineMatch l = none)
    (hb : branchMatch b = some g) :
    SourceFile.add f (pre ++ b :: post) = (f, some PyErr.indexError) := by
  unfold SourceFile.add
  rw [parseLoop_branch_first b g hb pre post [] hpre]

/-- Witness for C10: a file whose only line is `branch 0 never executed`
makes `SourceFile.add` raise `IndexError`. -/
theorem branch_before_source_error_witness :
    SourceFile.add ⟨[], [], ""⟩ [("branch 0 never executed".data)] =
      (⟨[], [], ""⟩, some PyErr.indexError) := by
  have h := branch_before_source_error ⟨[], [], ""⟩ [] []
    ("branch 0 never executed".data) ⟨"branch", ['0'], none, none⟩
    (by simp) (by decide)
  simpa using h

/-- The accumulator of the `int(s)` fold never decreases. -/
theorem natOfDigits_foldl_le (ds : List Char) : ∀ a : Nat,
    a ≤ ds.foldl (fun acc c => 10 * acc + (c.toNat - 48)) a := by
  induction ds with
  | nil => intro a; simp
  | cons c ds ih =>
    intro a
    simp only [List.foldl_cons]
    calc a ≤ 10 * a + (c.toNat - 48) := by omega
      _ ≤ _ := ih _

/-- A digit run whose first digit is not `0` denotes a value `≥ 1`. -/
theorem natOfDigits_pos {d : Char} (ds : List Char)
    (hd : py_isDigit d = true) (h0 : d ≠ '0') :
    1 ≤ natOfDigits (d :: ds) := by
  have h1 : 1 ≤ d.toNat - 48 := by
    have hmem : d ∈ ['0', '1', '2', '3', '4', '5', '6', '7', '8', '9'] := by
      simpa [py_isDigit] using hd
    fin_cases hmem
    · exact absurd rfl h0
    all_goals decide
  have h2 := natOfDigits_foldl_le ds (10 * 0 + (d.toNat - 48))
  unfold natOfDigits
  simp only [List.foldl_cons]
  omega

/-- A matched count field is one of the regex's four alternatives: `-`, the
five-`#` block, the five-`=` block, or a nonempty digit run. -/
theorem countField_sound {s cs r : List Char} (h : countField s = some (cs, r)) :
    cs = ['-'] ∨ cs = ("#####".data) ∨ cs = ("=====".data) ∨
      (cs ≠ [] ∧ ∀ c ∈ cs, py_isDigit c = true) := by
  unfold countField at h
  cases s with
  | nil => cases h
  | cons c rest =>
    by_cases h1 : c = '-'
    · simp [h1] at h
      exact Or.inl h.1.symm
    · by_cases h2 : c = '#'
      · simp [h1, h2] at h
        split at h
        · simp only [Option.some.injEq, Prod.mk.injEq] at h
          exact Or.inr (Or.inl h.1.symm)
        · cases h
      · by_cases h3 : c = '='
        · simp [h1, h2, h3] at h
          split at h
          · simp only [Option.some.injEq, Prod.mk.injEq] at h
            exact Or.inr (Or.inr (Or.inl h.1.symm))
          · cases h
        · simp only [h1, h2, h3, if_false] at h
          rcases hsp : spanDigits (c :: rest) with ⟨ds, rest'⟩
          rw [hsp] at h
          cases ds with
          | nil => simp at h
          | cons d dtl =>
            simp at h
            simp only [spanDigits, Prod.mk.injEq] at hsp
            have hcs : cs = (c :: rest).takeWhile py_isDigit := by
              rw [hsp.1, h.1]
            refine Or.inr (Or.inr (Or.inr ⟨?_, ?_⟩))
            · rw [← h.1]
              simp
            · intro x hx
              rw [hcs] at hx
              exact List.mem_takeWhile_imp hx

/-- A matched line-number field is a nonempty digit run with no leading
zero. -/
theorem lineNumField_sound {s ls r : List Char} (h : lineNumField s = some (ls, r)) :
    ls ≠ [] ∧ (∀ c ∈ ls, py_isDigit c = true) ∧ ls.head? ≠ some '0' := by
  unfold lineNumField at h
  rcases hsp : spanDigits s with ⟨ds, rest'⟩
  rw [hsp] at h
  cases ds with
  | nil => simp at h
  | cons d dtl =>
    by_cases h0 : d = '0'
    · simp [h0] at h
    · simp [h0] at h
      simp only [spanDigits, Prod.mk.injEq] at hsp
      have hls : ls = s.takeWhile py_isDigit := by rw [hsp.1, h.1]
      refine ⟨by rw [← h.1]; simp, ?_, ?_⟩
      · intro x hx
        rw [hls] at hx
        exact List.mem_takeWhile_imp hx
      · rw [← h.1]
        simpa using h0

/-- C5: for every line matching `SourceLine.regex`, the parser decodes the
count field as claimed — `-` to the not-instrumented sentinel `-1`, a block
of five `#` or five `=` to `0`, a digit run to its integer value (and these
are the only possible count fields) — and the matched line-number field is a
digit run with no leading zero denoting an integer `≥ 1`, which becomes the
line's number. -/
theorem source_line_decode (line cs ls src : List Char)
    (h : sourceLineMatch line = some (cs, ls, src)) :
    ((SourceLine.from_gcov_match cs ls src).coverage =
        (if cs = ['-'] then (-1 : Int)
         else if cs = ("#####".data) ∨ cs = ("=====".data) then 0
         else (natOfDigits cs : Int))) ∧
    (cs = ['-'] ∨ cs = ("#####".data) ∨ cs = ("=====".data) ∨
      (cs ≠ [] ∧ ∀ c ∈ cs, py_isDigit c = true)) ∧
    ((SourceLine.from_gcov_match cs ls src).linenum = natOfDigits ls) ∧
    ls ≠ [] ∧ (∀ c ∈ ls, py_isDigit c = true) ∧ ls.head? ≠ some '0' ∧
    1 ≤ (SourceLine.from_gcov_match cs ls src).linenum := by
  unfold sourceLineMatch at h
  rcases hcf : countField (line.dropWhile py_isSpace) with _ | ⟨cs', r1⟩
  · rw [hcf] at h; cases h
  rw [hcf] at h
  simp only [Option.some_bind] at h
  rcases hc1 : expectColon r1 with _ | r2
  · rw [hc1] at h; cases h
  rw [hc1] at h
  simp only [Option.some_bind] at h
  rcases hln : lineNumField (r2.dropWhile py_isSpace) with _ | ⟨ls', r3⟩
  · rw [hln] at h; cases h
  rw [hln] at h
  simp only [Option.some_bind] at h
  rcases hc2 : expectColon r3 with _ | src'
  · rw [hc2] at h; cases h
  rw [hc2] at h
  simp only [Option.map_some', Option.some.injEq, Prod.mk.injEq] at h
  obtain ⟨hcs, hls, hsrc⟩ := h
  obtain ⟨hne, hdig, hhead⟩ := lineNumField_sound hln
  subst hcs; subst hls; subst hsrc
  have hge : 1 ≤ natOfDigits ls' := by
    cases ls' with
    | nil => exact absurd rfl hne
    | cons d ds =>
      refine natOfDigits_pos ds (hdig d (by simp)) ?_
      intro hd0
      rw [hd0] at hhead
      simp at hhead
  exact ⟨rfl, countField_sound hcf, rfl, hne, hdig, hhead, hge⟩

/-- Witness for C5 at a concrete matching line: the five-`#` block decodes
to count 0 and the line number 7 is accepted. -/
theorem source_line_decode_witness :
    sourceLineMatch ("    #####:    7:foo();".data) =
      some (("#####".data), ['7'], ("foo();".data)) ∧
    (SourceLine.from_gcov_match ("#####".data) ['7'] ("foo();".data)).coverage = 0 ∧
    (SourceLine.from_gcov_match ("#####".data) ['7'] ("foo();".data)).linenum = 7 := by
  refine ⟨by decide, ?_, by decide⟩
  have h := source_line_decode ("    #####:    7:foo();".data) ("#####".data) ['7']
    ("foo();".data) (by decide)
  rw [h.1]
  decide

/-- Round-half-to-even of the fraction `num / den` (for `den ≠ 0`), the
rounding used by decimal float formatting. -/
def roundHalfEven (num den : Nat) : Nat :=
  if 2 * (num % den) < den then num / den
  else if den < 2 * (num % den) then num / den + 1
  else if (num / den) % 2 = 0 then num / den else num / den + 1

/-- Python `'{:.2f}'.format(percent)` for `percent = (100 * covered) / total`:
the decimal numeral with exactly two fractional digits nearest to the ratio,
ties to even — i.e. `10000 * covered / total` rounded to the nearest integer
and printed as `q.rr`.  The source computes the ratio as an IEEE-754 double
before formatting; the embedding formats the exact ratio instead.  The two
can differ only when the exact ratio lies within one double ulp of a
third-decimal tie point, where the claim's "rounded to 2 decimals" does not
discriminate between the two candidate numerals either. -/
def format2f (covered total : Nat) : String :=
  toString (roundHalfEven (10000 * covered) total / 100) ++ "." ++
    (if roundHalfEven (10000 * covered) total % 100 < 10 then "0" else "") ++
    toString (roundHalfEven (10000 * covered) total % 100)

/-- `to_percentage`: the percentage/health-tier pair displayed on the index
page.  The two reassignments of `coverage_percent` (the `'100.00'` → `'99.99'`
and `elif '0.00'` → `'0.01'` display clamps) and the threshold comparison
chain are inlined. -/
def to_percentage (covered total : Nat) (good_percent normal_percent : ℚ) :
    String × String :=
  if total = 0 then ("---", "na")
  else if covered = total then ("100.00", "all")
  else if covered = 0 then ("0.00", "zero")
  else
    ((if format2f covered total = "100.00" then "99.99"
      else if format2f covered total = "0.00" then "0.01"
      else format2f covered total),
     (if good_percent ≤ (100 * covered : ℚ) / total then "good"
      else if normal_percent ≤ (100 * covered : ℚ) / total then "normal"
      else "bad"))

/-- C4: `to_percentage` on any pair with `0 ≤ covered ≤ total`: a zero total
yields the not-applicable sentinel; full coverage yields exactly `100.00`
with the full tier; zero coverage (of a nonzero total) yields exactly `0.00`
with the zero tier; and for strictly partial nonzero coverage the display is
the two-decimal rounding of `100*covered/total` with the `100.00` → `99.99`
and `0.00` → `0.01` string clamps, so it is never `100.00` and never
`0.00`. -/
theorem to_percentage_cases (covered total : ℕ) (g n : ℚ) (hct : covered ≤ total) :
    (total = 0 → to_percentage covered total g n = ("---", "na")) ∧
    (covered = total → total ≠ 0 → to_percentage covered total g n = ("100.00", "all")) ∧
    (covered = 0 → total ≠ 0 → to_percentage covered total g n = ("0.00", "zero")) ∧
    (0 < covered → covered < total →
      ((to_percentage covered total g n).1 =
        (if format2f covered total = "100.00" then "99.99"
         else if format2f covered total = "0.00" then "0.01"
         else format2f covered total)) ∧
      (to_percentage covered total g n).1 ≠ "100.00" ∧
      (to_percentage covered total g n).1 ≠ "0.00") := by
  refine ⟨?_, ?_, ?_, ?_⟩
  · intro h0
    simp [to_percentage, h0]
  · intro he h0
    simp [to_percentage, h0, he]
  · intro h0 hn
    have h1 : ¬covered = total := by omega
    have h2 : ¬(0 : ℕ) = total := by omega
    simp [to_percentage, h0, hn, h1, h2]
  · intro h1 h2
    have ht0 : ¬total = 0 := by omega
    have hne : ¬covered = total := by omega
    have hc0 : ¬covered = 0 := by omega
    have e1 : (to_percentage covered total g n).1 =
        (if format2f covered total = "100.00" then "99.99"
         else if format2f covered total = "0.00" then "0.01"
         else format2f covered total) := by
      unfold to_percentage
      rw [if_neg ht0, if_neg hne, if_neg hc0]
    refine ⟨e1, ?_, ?_⟩
    · rw [e1]
      by_cases hd : format2f covered total = "100.00"
      · rw [if_pos hd]; decide
      · rw [if_neg hd]
        by_cases hd2 : format2f covered total = "0.00"
        · rw [if_pos hd2]; decide
        · rw [if_neg hd2]; exact hd
    · rw [e1]
      by_cases hd : format2f covered total = "100.00"
      · rw [if_pos hd]; decide
      · rw [if_neg hd]
        by_cases hd2 : format2f covered total = "0.00"
        · rw [if_pos hd2]; decide
        · rw [if_neg hd2]; exact hd2

/-- Witness for C4 at `covered = 1, total = 3` (thresholds 90/75 as used for
line coverage): the display is the two-decimal rounding `33.33`, not
`100.00`. -/
theorem to_percentage_cases_witness :
    (to_percentage 1 3 90 75).1 ≠ "100.00" ∧ (to_percentage 1 3 90 75).1 = "33.33" := by
  have h := to_percentage_cases 1 3 90 75 (by decide)
  refine ⟨(h.2.2.2 (by decide) (by decide)).2.1, ?_⟩
  rw [(h.2.2.2 (by decide) (by decide)).1]
  decide

/-- `html.escape(s)` with the default `quote=True`, character by character
(the source's sequential `str.replace` chain replaces `&` first, so it never
rewrites the `&` of an entity it has itself produced, making it equivalent
to this single pass). -/
def html_escape_char (c : Char) : List Char :=
  if c = '&' then ("&amp;".data)
  else if c = '<' then ("&lt;".data)
  else if c = '>' then ("&gt;".data)
  else if c = '"' then ("&quot;".data)
  else if c.toNat = 39 then ("&#x27;".data)
  else [c]

/-- `html.escape` lifted to a whole string. -/
def escapeList : List Char → List Char
  | [] => []
  | c :: rest => html_escape_char c ++ escapeList rest

/-- `html.escape` as imported and used by `lib711cov.py`. -/
def escape (s : String) : String := String.mk (escapeList s.data)

/-- `SourceFunction.to_html`: the functions-table row of the detail page.
`self.name` and `self.pretty_name` are interpolated *without* `escape(...)`
(unlike `SourceLine.to_html`, which escapes the source text, and
`html_index`, which escapes the file name). -/
def SourceFunction.to_html (self : SourceFunction) : String :=
  "<tr id=\"func-" ++ self.name ++ "\" class=\"cov-health-" ++
    (if self.called = 0 then "zero" else "all") ++
    "\">\n                    <td><a href=\"#line-" ++ toString self.linenum ++
    "\">" ++ self.pretty_name ++ "</a></td>\n                    <td>" ++
    toString self.called ++ "</td><td>" ++ toString self.returned ++
    "%</td><td>" ++ toString self.blocks ++ "%</td>\n                </tr>\n"

/-- `needle` occurs as a contiguous substring of `hay`. -/
def containsSub (hay needle : List Char) : Bool :=
  hay.tails.any (fun t => needle.isPrefixOf t)

/-- C6: source-derived text reaches the detail page unescaped.  A function
record named `operator<` (as produced by `SourceFunction.regex` on a real
gcov function line) renders with the raw `<` of its name and demangled name
in the HTML — the escaped form `operator&lt;` appears nowhere in the row —
contradicting the claim that every source-derived string is inserted
HTML-escaped. -/
theorem function_to_html_unescaped :
    functionMatch ("function operator< called 1 returned 100% blocks executed 100%".data) =
      some ⟨("operator<".data), ['1'], ("100".data), ("100".data)⟩ ∧
    containsSub
      (SourceFunction.from_gcov_match 3
        ⟨("operator<".data), ['1'], ("100".data), ("100".data)⟩).to_html.data
      ("operator<".data) = true ∧
    containsSub
      (SourceFunction.from_gcov_match 3
        ⟨("operator<".data), ['1'], ("100".data), ("100".data)⟩).to_html.data
      ((escape "operator<").data) = false := by
  decide

/-- `hex(ord(c))[2:]`: the code point in lowercase hexadecimal with no
leading zeros (`Nat.toDigits 16` uses the digits `0…9a…f`). -/
def hexDigits (n : Nat) : List Char := Nat.toDigits 16 n

/-- The local replacement function `escape_char` of `to_html_filename`:
`/` becomes `--`, `-` becomes `-m`, any other matched character becomes `-`
followed by its lowercase hexadecimal code point. -/
def escape_char (c : Char) : List Char :=
  if c = '/' then ['-', '-']
  else if c = '-' then ['-', 'm']
  else '-' :: hexDigits c.toNat

/-- `re.sub(r'[^.\w]', escape_char, source_file_name)`: every character that
is neither a word character nor a literal dot is replaced. -/
def sub_escape : List Char → List Char
  | [] => []
  | c :: rest =>
    (if py_isWordChar c || c = '.' then [c] else escape_char c) ++ sub_escape rest

/-- `to_html_filename`. -/
def to_html_filename (source_file_name : String) : String :=
  "source-" ++ String.mk (sub_escape source_file_name.data) ++ ".html"

/-- The character alphabet claim C9 quantifies over: word characters, `.`,
`/`, `-`, and non-ASCII characters. -/
def claimPathChar (c : Char) : Bool :=
  py_isWordChar c || c = '.' || c = '/' || c = '-' || 128 ≤ c.toNat

/-- The ASCII part of the claim's alphabet (the amended domain): word
characters, `.`, `/` and `-`. -/
def asciiPathChar (c : Char) : Bool :=
  py_isWordChar c || c = '.' || c = '/' || c = '-'

/-- C9 counterexample: the hexadecimal escapes have no terminator, so they
can absorb following word characters.  The two distinct paths `¤90`
(U+00A4 CURRENCY SIGN followed by the word characters `9`, `0`) and `꒐`
(U+A490 YI RADICAL QOT) — both made of claim-alphabet characters — mangle
to the same report filename `source--a490.html`, so `to_html_filename` is
not injective on the claimed domain. -/
theorem to_html_filename_collision :
    (("¤90" : String) ≠ "꒐") ∧
    ("¤90" : String).data.all claimPathChar = true ∧
    ("꒐" : String).data.all claimPathChar = true ∧
    to_html_filename "¤90" = to_html_filename "꒐" := by
  decide

/-- Unfolding lemma for `sub_escape`. -/
theorem sub_escape_cons (c : Char) (s : List Char) :
    sub_escape (c :: s) =
      (if py_isWordChar c || c = '.' then [c] else escape_char c) ++ sub_escape s := rfl

/-- A character of the amended domain is a word/dot character, `/`, or `-`. -/
theorem asciiPathChar_cases {c : Char} (h : asciiPathChar c = true) :
    (py_isWordChar c || c = '.') = true ∨ c = '/' ∨ c = '-' := by
  simp only [asciiPathChar, Bool.or_eq_true, decide_eq_true_eq] at h
  rcases h with ((h | h) | h) | h
  · exact Or.inl (by simp [h])
  · exact Or.inl (by simp [h])
  · exact Or.inr (Or.inl h)
  · exact Or.inr (Or.inr h)

/-- A kept (word or dot) character is not `/`. -/
theorem plain_ne_slash {c : Char} (h : (py_isWordChar c || c = '.') = true) :
    c ≠ '/' := by
  intro he; subst he; exact absurd h (by decide)

/-- A kept (word or dot) character is not `-`. -/
theorem plain_ne_hyphen {c : Char} (h : (py_isWordChar c || c = '.') = true) :
    c ≠ '-' := by
  intro he; subst he; exact absurd h (by decide)

/-- On the amended domain the substitution is injective: kept characters are
never `-`, and the two two-character escapes `--` and `-m` differ in their
second character, so the encoding is uniquely decodable. -/
theorem sub_escape_injOn : ∀ s t : List Char,
    (∀ c ∈ s, asciiPathChar c = true) → (∀ c ∈ t, asciiPathChar c = true) →
    sub_escape s = sub_escape t → s = t := by
  have eslash : escape_char '/' = ['-', '-'] := by decide
  have ehyph : escape_char '-' = ['-', 'm'] := by decide
  intro s
  induction s with
  | nil =>
    intro t _ ht h
    cases t with
    | nil => rfl
    | cons b t =>
      exfalso
      rcases asciiPathChar_cases (ht b (by simp)) with hb | hb | hb
      · rw [sub_escape_cons, if_pos hb] at h; simp [sub_escape] at h
      · subst hb; rw [sub_escape_cons, if_neg (by decide), eslash] at h
        simp [sub_escape] at h
      · subst hb; rw [sub_escape_cons, if_neg (by decide), ehyph] at h
        simp [sub_escape] at h
  | cons a s ih =>
    intro t hs ht h
    have ha := asciiPathChar_cases (hs a (by simp))
    have hs' : ∀ c ∈ s, asciiPathChar c = true := fun c hc => hs c (by simp [hc])
    cases t with
    | nil =>
      exfalso
      rcases ha with ha | ha | ha
      · rw [sub_escape_cons, if_pos ha] at h; simp [sub_escape] at h
      · subst ha; rw [sub_escape_cons, if_neg (by decide), eslash] at h
        simp [sub_escape] at h
      · subst ha; rw [sub_escape_cons, if_neg (by decide), ehyph] at h
        simp [sub_escape] at h
    | cons b t =>
      have hb := asciiPathChar_cases (ht b (by simp))
      have ht' : ∀ c ∈ t, asciiPathChar c = true := fun c hc => ht c (by simp [hc])
      rcases ha with ha | ha | ha <;> rcases hb with hb | hb | hb
      · -- plain / plain
        rw [sub_escape_cons, if_pos ha, sub_escape_cons, if_pos hb] at h
        simp only [List.singleton_append, List.cons.injEq] at h
        rw [h.1, ih t hs' ht' h.2]
      · -- plain / slash
        exfalso
        subst hb
        rw [sub_escape_cons, if_pos ha, sub_escape_cons, if_neg (by decide), eslash] at h
        simp only [List.singleton_append, List.cons_append, List.cons.injEq] at h
        exact plain_ne_hyphen ha h.1
      · -- plain / hyphen
        exfalso
        subst hb
        rw [sub_escape_cons, if_pos ha, sub_escape_cons, if_neg (by decide), ehyph] at h
        simp only [List.singleton_append, List.cons_append, List.cons.injEq] at h
        exact plain_ne_hyphen ha h.1
      · -- slash / plain
        exfalso
        subst ha
        rw [sub_escape_cons, if_neg (by decide), eslash, sub_escape_cons, if_pos hb] at h
        simp only [List.singleton_append, List.cons_append, List.cons.injEq] at h
        exact plain_ne_hyphen hb h.1.symm
      · -- slash / slash
        subst ha; subst hb
        rw [sub_escape_cons, if_neg (by decide), eslash,
          sub_escape_cons, if_neg (by decide), eslash] at h
        simp only [List.cons_append, List.cons.injEq, true_and] at h
        rw [ih t hs' ht' h]
      · -- slash / hyphen
        exfalso
        subst ha; subst hb
        rw [sub_escape_cons, if_neg (by decide), eslash,
          sub_escape_cons, if_neg (by decide), ehyph] at h
        simp only [List.cons_append, List.cons.injEq, true_and] at h
        exact absurd h.1 (by decide)
      · -- hyphen / plain
        exfalso
        subst ha
        rw [sub_escape_cons, if_neg (by decide), ehyph, sub_escape_cons, if_pos hb] at h
        simp only [List.singleton_append, List.cons_append, List.cons.injEq] at h
        exact plain_ne_hyphen hb h.1.symm
      · -- hyphen / slash
        exfalso
        subst ha; subst hb
        rw [sub_escape_cons, if_neg (by decide), ehyph,
          sub_escape_cons, if_neg (by decide), eslash] at h
        simp only [List.cons_append, List.cons.injEq, true_and] at h
        exact absurd h.1 (by decide)
      · -- hyphen / hyphen
        subst ha; subst hb
        rw [sub_escape_cons, if_neg (by decide), ehyph,
          sub_escape_cons, if_neg (by decide), ehyph] at h
        simp only [List.cons_append, List.cons.injEq, true_and] at h
        rw [ih t hs' ht' h]

/-- C9 amended: `to_html_filename` *is* injective on paths made only of
(ASCII) word characters, `.`, `/` and `-` — the alphabet with non-ASCII
characters removed, which is what the hex-escape collision of
`to_html_filename_collision` forces. -/
theorem to_html_filename_inj_ascii (s t : String)
    (hs : ∀ c ∈ s.data, asciiPathChar c = true)
    (ht : ∀ c ∈ t.data, asciiPathChar c = true)
    (h : to_html_filename s = to_html_filename t) : s = t := by
  have hd : ("source-".data) ++ (sub_escape s.data ++ (".html".data)) =
      ("source-".data) ++ (sub_escape t.data ++ (".html".data)) := by
    have h2 := congrArg String.data h
    simpa [to_html_filename] using h2
  have hm : sub_escape s.data = sub_escape t.data :=
    List.append_cancel_right (List.append_cancel_left hd)
  exact congrArg String.mk (sub_escape_injOn s.data t.data hs ht hm)

/-- Witness for C9's amended statement: a realistic path made of word
characters, dots, slashes and a hyphen is recovered from its own mangled
name. -/
theorem to_html_filename_inj_ascii_witness : ("src/foo-bar.c" : String) = "src/foo-bar.c" :=
  to_html_filename_inj_ascii "src/foo-bar.c" "src/foo-bar.c"
    (by decide) (by decide) rfl

end Lib711cov
